import Mathlib

/-!
Verification of the plan lifecycle and week-resolution engine of the
fitness-backend repository.

The JavaScript sources are embedded shallowly:
* Mongoose `Plan` documents become the `Plan` structure; all JS `Number`
  fields that hold integral values (timestamps in milliseconds, week
  counts, paused-day counts) become `Int`.
* `Math.floor(x / c)` on integral operands with `c > 0` is `Int.fdiv x c`
  (floor division, also correct for negative numerators).
* Route handlers become pure functions from the persisted state and the
  current wall-clock time (milliseconds since the epoch) to either a new
  persisted state or an HTTP error (`Except HttpError _`); an `error`
  result means nothing was persisted.
* Mongoose schema validation that runs on `save()` (here: the 1..52 bound
  on `numberOfWeeks`) is part of the persisting step: a validation failure
  surfaces as a generic 500 error and aborts the write.
-/

/-- One day in milliseconds: `1000 * 60 * 60 * 24` as written in
`calculateCurrentWeek`. -/
def msPerDay : Int := 1000 * 60 * 60 * 24

/-- `status` field of a plan document: `enum: ['active', 'paused', 'completed']`. -/
inductive PlanStatus where
  | active
  | paused
  | completed
deriving DecidableEq

/-- A persisted `Plan` document (src/unnamed/part_002).  `id` stands for the
Mongo `_id`; `dailyStepsGoal` is the only part of the opaque `goals`
sub-document that any modelled route reads (`plan?.goals?.dailyStepsGoal`
in the steps route); `dietPlan` and the rest of `goals` are not interpreted
by the plan engine and are omitted. -/
structure Plan where
  id : Nat
  startDate : Int
  numberOfWeeks : Int
  currentWeek : Int
  status : PlanStatus
  pausedAt : Option Int
  pausedDays : Int
  dailyStepsGoal : Option Int
deriving DecidableEq

/-- `planSchema.methods.calculateCurrentWeek` (src/unnamed/part_002, lines 69-81):

    if (this.status === 'paused') return this.currentWeek;
    const diffTime = now - start - (this.pausedDays * 24 * 60 * 60 * 1000);
    const diffDays = Math.floor(diffTime / (1000 * 60 * 60 * 24));
    const week = Math.floor(diffDays / 7) + 1;
    return Math.min(Math.max(week, 1), this.numberOfWeeks);
-/
def Plan.calculateCurrentWeek (p : Plan) (now : Int) : Int :=
  if p.status = PlanStatus.paused then
    p.currentWeek
  else
    let diffTime := now - p.startDate - p.pausedDays * msPerDay
    let diffDays := Int.fdiv diffTime msPerDay
    let week := Int.fdiv diffDays 7 + 1
    min (max week 1) p.numberOfWeeks

/-- `planSchema.methods.isCompleted` (src/unnamed/part_002, lines 84-86):
`return this.calculateCurrentWeek() > this.numberOfWeeks;` -/
def Plan.isCompleted (p : Plan) (now : Int) : Bool :=
  decide (p.calculateCurrentWeek now > p.numberOfWeeks)

/-- The raw (pre-clamp) week value computed inside `calculateCurrentWeek`,
named so that theorems can speak about the uncapped intermediate value. -/
def Plan.rawWeek (p : Plan) (now : Int) : Int :=
  Int.fdiv (Int.fdiv (now - p.startDate - p.pausedDays * msPerDay) msPerDay) 7 + 1

theorem calculateCurrentWeek_active (p : Plan) (now : Int)
    (h : p.status ≠ PlanStatus.paused) :
    p.calculateCurrentWeek now = min (max (p.rawWeek now) 1) p.numberOfWeeks := by
  simp [Plan.calculateCurrentWeek, Plan.rawWeek, h]

/-- Modelled from the spec (§4.1 `computeCurrentWeek()`), for comparison with
the implementation: "If `status = paused`: return the frozen `currentWeek`.
Else: `elapsedMs = now − startDate − pausedDays × 86,400,000`;
`elapsedDays = floor(elapsedMs / 86,400,000)`; `week = floor(elapsedDays / 7) + 1`;
return `clamp(week, 1, numberOfWeeks)`." -/
def spec_computeCurrentWeek (p : Plan) (now : Int) : Int :=
  if p.status = PlanStatus.paused then
    p.currentWeek
  else
    let elapsedMs := now - p.startDate - p.pausedDays * 86400000
    let elapsedDays := Int.fdiv elapsedMs 86400000
    let week := Int.fdiv elapsedDays 7 + 1
    min (max week 1) p.numberOfWeeks

example : msPerDay = 86400000 := by decide

/-- A structured HTTP failure: the status code the route responds with and
the `message` field of the JSON body. -/
structure HttpError where
  status : Nat
  message : String
deriving DecidableEq

/-- Message returned by `POST /api/plan` when the caller already has an
active or paused plan (src/routes/plan.js, line 26). -/
def conflictMessage : String :=
  "You already have an active or paused plan. Please complete or cancel it first."

/-- Message standing for the generic 500 response produced when a mongoose
schema validation error propagates to the error-handling middleware. -/
def validationMessage : String := "Internal Server Error"

/-- Does the predicate of `Plan.findOne({userId, status: {$in: ['active','paused']}})`
hold of some plan in the user's list? (src/routes/plan.js, lines 18-21) -/
def hasActiveOrPaused (plans : List Plan) : Bool :=
  plans.any fun p =>
    decide (p.status = PlanStatus.active ∨ p.status = PlanStatus.paused)

/-- The document built by `Plan.create` in `POST /api/plan`
(src/routes/plan.js, lines 30-36): schema defaults give
`currentWeek = 1`, `status = 'active'`, `pausedAt = null`, `pausedDays = 0`. -/
def newPlan (newId : Nat) (start nw : Int) (g : Option Int) : Plan :=
  { id := newId
    startDate := start
    numberOfWeeks := nw
    currentWeek := 1
    status := PlanStatus.active
    pausedAt := none
    pausedDays := 0
    dailyStepsGoal := g }

/-- `POST /api/plan` (src/routes/plan.js, lines 13-45): reject with a 400
response when an active-or-paused plan already exists; otherwise persist a
fresh plan, subject to the schema bound `1 ≤ numberOfWeeks ≤ 52` whose
violation aborts the write with a generic 500. -/
def createPlan (existing : List Plan) (newId : Nat) (start nw : Int)
    (g : Option Int) : Except HttpError Plan :=
  if hasActiveOrPaused existing then
    Except.error ⟨400, conflictMessage⟩
  else if 1 ≤ nw ∧ nw ≤ 52 then
    Except.ok (newPlan newId start nw g)
  else
    Except.error ⟨500, validationMessage⟩

/-- The lazy completion check performed by `GET /api/plan`
(src/routes/plan.js, lines 63-71): recompute the week and flip an active
plan to `completed` when the recomputed week exceeds `numberOfWeeks`.
Returns the plan state as persisted after the read. -/
def getCurrentPlanRead (p : Plan) (now : Int) : Plan :=
  if p.status = PlanStatus.active ∧ p.calculateCurrentWeek now > p.numberOfWeeks then
    { p with status := PlanStatus.completed }
  else
    p

/-- `PUT /api/plan/pause` applied to the found active plan
(src/routes/plan.js, lines 151-154).  The source mutates the document in
this order:

    plan.status = 'paused';
    plan.pausedAt = new Date();
    plan.currentWeek = plan.calculateCurrentWeek();

so `calculateCurrentWeek` already sees `status === 'paused'` and returns
the previously stored `currentWeek`; the embedding reproduces that order. -/
def applyPause (p : Plan) (now : Int) : Plan :=
  let p1 : Plan := { p with status := PlanStatus.paused, pausedAt := some now }
  { p1 with currentWeek := p1.calculateCurrentWeek now }

/-- `PUT /api/plan/resume` applied to the found paused plan
(src/routes/plan.js, lines 183-189):

    const pausedDays = Math.floor((now - plan.pausedAt) / (1000*60*60*24));
    plan.pausedDays += pausedDays;
    plan.status = 'active';
    plan.pausedAt = null;

A `null` JS date coerces to 0 in the subtraction, hence `getD 0`. -/
def applyResume (p : Plan) (now : Int) : Plan :=
  let d := Int.fdiv (now - (p.pausedAt.getD 0)) msPerDay
  { p with
    pausedDays := p.pausedDays + d
    status := PlanStatus.active
    pausedAt := none }

/-- The `pause` route as a whole: 404 when the caller has no active plan. -/
def pausePlan (plan : Option Plan) (now : Int) : Except HttpError Plan :=
  match plan with
  | none => Except.error ⟨404, "No active plan to pause"⟩
  | some p =>
    if p.status = PlanStatus.active then
      Except.ok (applyPause p now)
    else
      Except.error ⟨404, "No active plan to pause"⟩

/-- The `resume` route as a whole: 404 when the caller has no paused plan. -/
def resumePlan (plan : Option Plan) (now : Int) : Except HttpError Plan :=
  match plan with
  | none => Except.error ⟨404, "No paused plan to resume"⟩
  | some p =>
    if p.status = PlanStatus.paused then
      Except.ok (applyResume p now)
    else
      Except.error ⟨404, "No paused plan to resume"⟩

/-- `PUT /api/plan/:id` restricted to its `numberOfWeeks` handling
(src/routes/plan.js, lines 208-242):

    if (numberOfWeeks && numberOfWeeks >= plan.calculateCurrentWeek()) {
      plan.numberOfWeeks = numberOfWeeks;
    }
    await plan.save();

`numberOfWeeks && ...` is JS truthiness: a supplied 0 is skipped.  The
`save()` runs the schema validators, so a resulting `numberOfWeeks`
outside 1..52 fails the request and persists nothing.  The opaque
`dietPlan`/`goals` updates do not interact with any field modelled here. -/
def updateCandidate (p : Plan) (newWeeks : Option Int) (now : Int) : Plan :=
  match newWeeks with
  | some w =>
    if w ≠ 0 ∧ p.calculateCurrentWeek now ≤ w then
      { p with numberOfWeeks := w }
    else
      p
  | none => p

/-- The whole `PUT /api/plan/:id` request: build the candidate document,
then `save()` it (schema validation included). -/
def updatePlan (p : Plan) (newWeeks : Option Int) (now : Int) :
    Except HttpError Plan :=
  if 1 ≤ (updateCandidate p newWeeks now).numberOfWeeks ∧
      (updateCandidate p newWeeks now).numberOfWeeks ≤ 52 then
    Except.ok (updateCandidate p newWeeks now)
  else
    Except.error ⟨500, validationMessage⟩

/-- The lookup every logging endpoint performs:
`Plan.findOne({userId, status: {$in: ['active','paused']}})`. -/
def findActivePlan (plans : List Plan) : Option Plan :=
  plans.find? fun p =>
    decide (p.status = PlanStatus.active ∨ p.status = PlanStatus.paused)

/-- `const entryWeek = week || (plan ? plan.calculateCurrentWeek() : 1);`
as written in `POST /api/weight` (src/routes/plan.js weight router,
lines 337-365).  JS `||` falls through on a falsy supplied week, i.e. on
an absent week and on a supplied 0. -/
def weightEntryWeek (plan : Option Plan) (now : Int) (week : Option Int) : Int :=
  match week with
  | some w =>
    if w ≠ 0 then w
    else match plan with
      | some p => p.calculateCurrentWeek now
      | none => 1
  | none =>
    match plan with
    | some p => p.calculateCurrentWeek now
    | none => 1

/-- The same line in `POST /api/workout` (src/routes/workout.js, line 23). -/
def workoutEntryWeek (plan : Option Plan) (now : Int) (week : Option Int) : Int :=
  match week with
  | some w =>
    if w ≠ 0 then w
    else match plan with
      | some p => p.calculateCurrentWeek now
      | none => 1
  | none =>
    match plan with
    | some p => p.calculateCurrentWeek now
    | none => 1

/-- The same line in `POST /api/steps` (src/unnamed/part_004, line 27). -/
def stepsEntryWeek (plan : Option Plan) (now : Int) (week : Option Int) : Int :=
  match week with
  | some w =>
    if w ≠ 0 then w
    else match plan with
      | some p => p.calculateCurrentWeek now
      | none => 1
  | none =>
    match plan with
    | some p => p.calculateCurrentWeek now
    | none => 1

/-- The same line in `POST /api/meals` (src/routes/meals.js, line 41). -/
def mealEntryWeek (plan : Option Plan) (now : Int) (week : Option Int) : Int :=
  match week with
  | some w =>
    if w ≠ 0 then w
    else match plan with
      | some p => p.calculateCurrentWeek now
      | none => 1
  | none =>
    match plan with
    | some p => p.calculateCurrentWeek now
    | none => 1

/-- The week-resolution service of spec §6, assembled from the shared route
pattern: look up the active-or-paused plan, resolve the entry week, attach
`plan?._id`. -/
def resolveWeekAndPlan (plans : List Plan) (now : Int) (week : Option Int) :
    Int × Option Nat :=
  let plan := findActivePlan plans
  (weightEntryWeek plan now week, plan.map (fun p => p.id))

/-- A persisted `Steps` document (src/models/Steps.js). -/
structure StepsEntry where
  userId : Nat
  planId : Option Nat
  date : Int
  week : Int
  count : Int
  goal : Int
  distance : Option Int
  caloriesBurned : Option Int
deriving DecidableEq

/-- Body of a `POST /api/steps` request
(`{ count, goal, distance, caloriesBurned, date, week }`). -/
structure StepsRequest where
  count : Int
  goal : Option Int
  distance : Option Int
  caloriesBurned : Option Int
  week : Option Int
deriving DecidableEq

/-- `const stepsGoal = goal || plan?.goals?.dailyStepsGoal || 10000;`
(src/unnamed/part_004, line 28); both `||` fall through on 0/absent. -/
def resolveStepsGoal (goal : Option Int) (plan : Option Plan) : Int :=
  match goal with
  | some g =>
    if g ≠ 0 then g
    else match plan.bind (fun p => p.dailyStepsGoal) with
      | some d => if d ≠ 0 then d else 10000
      | none => 10000
  | none =>
    match plan.bind (fun p => p.dailyStepsGoal) with
    | some d => if d ≠ 0 then d else 10000
    | none => 10000

/-- `POST /api/steps` (src/unnamed/part_004, lines 14-55) after the date has
been normalised and the per-date lookup performed.  `existing` is the
result of `Steps.findOne({userId, date})`; `entryDate` is the normalised
request date (midnight of its day).  The update branch touches only
`count`, `goal`, and — when supplied — `distance` and `caloriesBurned`. -/
def postSteps (existing : Option StepsEntry) (plan : Option Plan)
    (userId : Nat) (entryDate : Int) (req : StepsRequest) (now : Int) :
    StepsEntry :=
  let entryWeek := stepsEntryWeek plan now req.week
  let stepsGoal := resolveStepsGoal req.goal plan
  match existing with
  | some e =>
    { e with
      count := req.count
      goal := stepsGoal
      distance := match req.distance with
        | some d => some d
        | none => e.distance
      caloriesBurned := match req.caloriesBurned with
        | some c => some c
        | none => e.caloriesBurned }
  | none =>
    { userId := userId
      planId := plan.map (fun p => p.id)
      date := entryDate
      week := entryWeek
      count := req.count
      goal := stepsGoal
      distance := req.distance
      caloriesBurned := req.caloriesBurned }

/-- Plan states reachable through the plan routes: creation, pause, resume,
the lazy completion check of `GET /api/plan`, and update.  The persisted
state only changes through these handlers; a handler returning an error
persists nothing, so only `ok` results extend reachability. -/
inductive Reachable : Plan → Prop where
  | created (existing : List Plan) (newId : Nat) (start nw : Int)
      (g : Option Int) (p : Plan)
      (h : createPlan existing newId start nw g = Except.ok p) : Reachable p
  | pauseStep (p : Plan) (now : Int) (hp : Reachable p)
      (h : p.status = PlanStatus.active) : Reachable (applyPause p now)
  | resumeStep (p : Plan) (now : Int) (hp : Reachable p)
      (h : p.status = PlanStatus.paused) : Reachable (applyResume p now)
  | readStep (p : Plan) (now : Int) (hp : Reachable p) :
      Reachable (getCurrentPlanRead p now)
  | updateStep (p : Plan) (w : Option Int) (now : Int) (q : Plan)
      (hp : Reachable p)
      (h : updatePlan p w now = Except.ok q) : Reachable q

theorem createPlan_ok {existing : List Plan} {newId : Nat} {start nw : Int}
    {g : Option Int} {p : Plan}
    (h : createPlan existing newId start nw g = Except.ok p) :
    hasActiveOrPaused existing = false ∧ 1 ≤ nw ∧ nw ≤ 52 ∧
      p = newPlan newId start nw g := by
  unfold createPlan at h
  by_cases h1 : hasActiveOrPaused existing
  · simp [h1] at h
  · by_cases h2 : 1 ≤ nw ∧ nw ≤ 52
    · simp [h1, h2] at h
      exact ⟨by simpa using h1, h2.1, h2.2, h.symm⟩
    · simp [h1, h2] at h

theorem applyPause_fields (p : Plan) (now : Int) :
    (applyPause p now).numberOfWeeks = p.numberOfWeeks ∧
      (applyPause p now).currentWeek = p.currentWeek ∧
      (applyPause p now).status = PlanStatus.paused := by
  refine ⟨rfl, ?_, rfl⟩
  simp [applyPause, Plan.calculateCurrentWeek]

theorem applyResume_fields (p : Plan) (now : Int) :
    (applyResume p now).numberOfWeeks = p.numberOfWeeks ∧
      (applyResume p now).currentWeek = p.currentWeek := ⟨rfl, rfl⟩

theorem getCurrentPlanRead_fields (p : Plan) (now : Int) :
    (getCurrentPlanRead p now).numberOfWeeks = p.numberOfWeeks ∧
      (getCurrentPlanRead p now).currentWeek = p.currentWeek := by
  unfold getCurrentPlanRead
  split <;> exact ⟨rfl, rfl⟩

theorem updateCandidate_fields (p : Plan) (w : Option Int) (now : Int) :
    (updateCandidate p w now).currentWeek = p.currentWeek ∧
      (updateCandidate p w now).status = p.status := by
  unfold updateCandidate
  cases w with
  | none => exact ⟨rfl, rfl⟩
  | some v =>
    by_cases hc : v ≠ 0 ∧ p.calculateCurrentWeek now ≤ v
    · simp [hc]
    · simp [hc]

theorem updatePlan_ok {p : Plan} {w : Option Int} {now : Int} {q : Plan}
    (h : updatePlan p w now = Except.ok q) :
    1 ≤ q.numberOfWeeks ∧ q.numberOfWeeks ≤ 52 ∧
      q.currentWeek = p.currentWeek ∧ q.status = p.status := by
  unfold updatePlan at h
  split at h
  next hval =>
    have hq : updateCandidate p w now = q := by
      simpa using h
    refine ⟨hq ▸ hval.1, hq ▸ hval.2, ?_, ?_⟩
    · exact hq ▸ (updateCandidate_fields p w now).1
    · exact hq ▸ (updateCandidate_fields p w now).2
  next => simp at h

/-- The inductive invariant behind the clamp property: every reachable plan
document has `numberOfWeeks ≥ 1` and its stored `currentWeek` cache equal
to 1 (creation sets it to 1 and, because the pause handler flips `status`
to `'paused'` before recomputing, no handler ever overwrites it). -/
theorem reachable_invariant (p : Plan) (hp : Reachable p) :
    1 ≤ p.numberOfWeeks ∧ p.currentWeek = 1 := by
  induction hp with
  | created existing newId start nw g p h =>
    obtain ⟨-, h1, -, hplan⟩ := createPlan_ok h
    subst hplan
    exact ⟨h1, rfl⟩
  | pauseStep p now hp h ih =>
    obtain ⟨hn, hc, -⟩ := applyPause_fields p now
    exact ⟨hn ▸ ih.1, hc ▸ ih.2⟩
  | resumeStep p now hp h ih =>
    obtain ⟨hn, hc⟩ := applyResume_fields p now
    exact ⟨hn ▸ ih.1, hc ▸ ih.2⟩
  | readStep p now hp ih =>
    obtain ⟨hn, hc⟩ := getCurrentPlanRead_fields p now
    exact ⟨hn ▸ ih.1, hc ▸ ih.2⟩
  | updateStep p w now q hp h ih =>
    obtain ⟨h1, -, hc, -⟩ := updatePlan_ok h
    exact ⟨h1, hc ▸ ih.2⟩

/-- C1: the claim asserts that completion is detected on read against the
pre-clamp week.  In the code, `isCompleted()` compares the already clamped
result of `calculateCurrentWeek()` with `numberOfWeeks`, so on the claim's
own scenario — an active 2-week plan with no pauses queried 20 days after
its start — the raw week is 3 and the displayed week 2, yet
`isCompleted()` is `false` and `GET /api/plan` leaves the status
`active`. -/
theorem C1_completion_check_dead :
    ((newPlan 1 0 2 none).rawWeek 1728000000 = 3 ∧
      (newPlan 1 0 2 none).calculateCurrentWeek 1728000000 = 2 ∧
      (newPlan 1 0 2 none).isCompleted 1728000000 = false ∧
      (getCurrentPlanRead (newPlan 1 0 2 none) 1728000000).status =
        PlanStatus.active) ∧
    ∀ (p : Plan) (now : Int), getCurrentPlanRead p now = p := by
  refine ⟨by decide, fun p now => ?_⟩
  unfold getCurrentPlanRead
  split
  next hc =>
    exfalso
    obtain ⟨ha, hgt⟩ := hc
    have hnp : p.status ≠ PlanStatus.paused := by simp [ha]
    rw [calculateCurrentWeek_active p now hnp] at hgt
    exact absurd (min_le_right _ p.numberOfWeeks) (not_le.mpr hgt)
  next => rfl

/-- C2: `calculateCurrentWeek` is a pure function of the persisted state and
the wall-clock time, agreeing everywhere with the spec's formula (paused
plans return the stored `currentWeek`; otherwise the clamped
floor-division formula); in the concrete scenario — start 2024-01-01,
4 weeks, paused 2024-01-10, resumed 2024-01-15 so that `pausedDays = 5` —
recomputing on 2024-01-22 yields `elapsedDays = 16` and week 3. -/
theorem C2_calculateCurrentWeek_spec :
    (∀ (p : Plan) (now : Int),
      p.calculateCurrentWeek now = spec_computeCurrentWeek p now) ∧
    (applyResume (applyPause (newPlan 1 1704067200000 4 none) 1704844800000)
        1705276800000).pausedDays = 5 ∧
    Int.fdiv (1705881600000 - 1704067200000 - 5 * msPerDay) msPerDay = 16 ∧
    (applyResume (applyPause (newPlan 1 1704067200000 4 none) 1704844800000)
        1705276800000).calculateCurrentWeek 1705881600000 = 3 := by
  refine ⟨fun p now => rfl, by decide, by decide, by decide⟩

/-- C3: for every reachable plan state and every wall-clock time the value
of `calculateCurrentWeek` lies in `[1, numberOfWeeks]`: active (and
completed) plans are explicitly clamped, and paused plans return the
stored `currentWeek`, which the reachable-state invariant pins to 1. -/
theorem C3_week_clamped (p : Plan) (hp : Reachable p) (now : Int) :
    1 ≤ p.calculateCurrentWeek now ∧
      p.calculateCurrentWeek now ≤ p.numberOfWeeks := by
  obtain ⟨hN, hcw⟩ := reachable_invariant p hp
  unfold Plan.calculateCurrentWeek
  split
  · exact ⟨by omega, by omega⟩
  · exact ⟨le_min (le_max_right _ 1) hN, min_le_right _ _⟩

theorem C3_week_clamped_witness :
    Reachable (newPlan 7 0 4 none) ∧
      (1 ≤ (newPlan 7 0 4 none).calculateCurrentWeek 0 ∧
        (newPlan 7 0 4 none).calculateCurrentWeek 0 ≤
          (newPlan 7 0 4 none).numberOfWeeks) :=
  have hr : Reachable (newPlan 7 0 4 none) :=
    Reachable.created [] 7 0 4 none (newPlan 7 0 4 none) rfl
  ⟨hr, C3_week_clamped (newPlan 7 0 4 none) hr 0⟩

/-- C4: for a fixed persisted state, `calculateCurrentWeek` is monotonically
non-decreasing in the evaluation time while the status is `active`, and
constant in the evaluation time while the status is `paused`. -/
theorem C4_week_monotone (p : Plan) (t1 t2 : Int) :
    (p.status = PlanStatus.active → t1 ≤ t2 →
      p.calculateCurrentWeek t1 ≤ p.calculateCurrentWeek t2) ∧
    (p.status = PlanStatus.paused →
      p.calculateCurrentWeek t1 = p.calculateCurrentWeek t2) := by
  constructor
  · intro hs hle
    have hnp : p.status ≠ PlanStatus.paused := by simp [hs]
    rw [calculateCurrentWeek_active p t1 hnp, calculateCurrentWeek_active p t2 hnp]
    have hday : (0 : Int) < msPerDay := by decide
    have h7 : (0 : Int) < 7 := by decide
    have h1 : t1 - p.startDate - p.pausedDays * msPerDay ≤
        t2 - p.startDate - p.pausedDays * msPerDay :=
      sub_le_sub_right (sub_le_sub_right hle _) _
    have h2 : Int.fdiv (t1 - p.startDate - p.pausedDays * msPerDay) msPerDay ≤
        Int.fdiv (t2 - p.startDate - p.pausedDays * msPerDay) msPerDay := by
      rw [Int.fdiv_eq_ediv _ hday.le, Int.fdiv_eq_ediv _ hday.le]
      exact Int.ediv_le_ediv hday h1
    have h3 : p.rawWeek t1 ≤ p.rawWeek t2 := by
      unfold Plan.rawWeek
      rw [Int.fdiv_eq_ediv _ h7.le, Int.fdiv_eq_ediv _ h7.le]
      exact add_le_add_right (Int.ediv_le_ediv h7 h2) 1
    exact min_le_min (max_le_max h3 le_rfl) le_rfl
  · intro hs
    unfold Plan.calculateCurrentWeek
    simp [hs]

theorem C4_week_monotone_witness :
    (newPlan 1 0 4 none).calculateCurrentWeek 0 ≤
      (newPlan 1 0 4 none).calculateCurrentWeek 86400000 ∧
    (applyPause (newPlan 1 0 4 none) 0).calculateCurrentWeek 0 =
      (applyPause (newPlan 1 0 4 none) 0).calculateCurrentWeek 86400000 :=
  ⟨(C4_week_monotone (newPlan 1 0 4 none) 0 86400000).1 rfl (by decide),
   (C4_week_monotone (applyPause (newPlan 1 0 4 none) 0) 0 86400000).2 rfl⟩

/-- C5 counterexample: the claim says a create conflict is surfaced as HTTP
409; `POST /api/plan` actually responds with HTTP 400 when the caller has
an active plan. -/
theorem C5_counterexample_status_400 :
    createPlan [newPlan 1 0 4 none] 2 0 4 none =
      Except.error ⟨400, conflictMessage⟩ ∧ (400 : Nat) ≠ 409 :=
  ⟨rfl, by decide⟩

/-- C5 (amended to HTTP 400): creating a plan while an active-or-paused
plan exists fails with the conflict message and status 400 and persists
nothing (an `error` result carries no document); when every existing plan
is `completed` the conflict lookup finds nothing, and creation with a
valid duration persists a plan with `status = active`, `pausedDays = 0`,
`currentWeek = 1`. -/
theorem C5_create_conflict (existing : List Plan) (newId : Nat)
    (start nw : Int) (g : Option Int) :
    (hasActiveOrPaused existing = true →
      createPlan existing newId start nw g =
        Except.error ⟨400, conflictMessage⟩) ∧
    ((∀ q ∈ existing, q.status = PlanStatus.completed) →
      hasActiveOrPaused existing = false) ∧
    (hasActiveOrPaused existing = false → 1 ≤ nw → nw ≤ 52 →
      createPlan existing newId start nw g =
        Except.ok
          { id := newId, startDate := start, numberOfWeeks := nw,
            currentWeek := 1, status := PlanStatus.active,
            pausedAt := none, pausedDays := 0, dailyStepsGoal := g }) := by
  refine ⟨?_, ?_, ?_⟩
  · intro h
    simp [createPlan, h]
  · intro h
    unfold hasActiveOrPaused
    rw [List.any_eq_false]
    intro q hq
    simp [h q hq]
  · intro h h1 h2
    simp [createPlan, h, h1, h2, newPlan]

theorem C5_create_conflict_witness :
    createPlan [{ newPlan 1 0 4 none with status := PlanStatus.completed }]
        2 0 4 none =
      Except.ok
        { id := 2, startDate := 0, numberOfWeeks := 4, currentWeek := 1,
          status := PlanStatus.active, pausedAt := none, pausedDays := 0,
          dailyStepsGoal := none } ∧
    createPlan [newPlan 1 0 4 none] 3 0 4 none =
      Except.error ⟨400, conflictMessage⟩ :=
  ⟨(C5_create_conflict
      [{ newPlan 1 0 4 none with status := PlanStatus.completed }]
      2 0 4 none).2.2 rfl (by decide) (by decide),
   (C5_create_conflict [newPlan 1 0 4 none] 3 0 4 none).1 rfl⟩

/-- C6: the claim says resuming returns the plan to the week frozen at the
moment of pausing.  The pause handler sets `status = 'paused'` before
assigning `plan.currentWeek = plan.calculateCurrentWeek()`, so the
recomputation takes the paused branch and re-stores the stale cached week
instead of the week reached at the pause instant.  Concretely: a 4-week
plan paused 10 days in (true week 2) freezes `currentWeek = 1`, displays
week 1 while paused, and on resume 5 whole days later gains exactly
`pausedDays = 5`, clears `pausedAt`, turns `active` — and computes week 2,
not the frozen week 1. -/
theorem C6_pause_freezes_stale_week :
    (newPlan 1 0 4 none).calculateCurrentWeek 864000000 = 2 ∧
    (applyPause (newPlan 1 0 4 none) 864000000).currentWeek = 1 ∧
    (applyPause (newPlan 1 0 4 none) 864000000).calculateCurrentWeek
      1000000000 = 1 ∧
    (applyResume (applyPause (newPlan 1 0 4 none) 864000000)
      1296000000).pausedDays = 5 ∧
    (applyResume (applyPause (newPlan 1 0 4 none) 864000000)
      1296000000).status = PlanStatus.active ∧
    (applyResume (applyPause (newPlan 1 0 4 none) 864000000)
      1296000000).pausedAt = none ∧
    (applyResume (applyPause (newPlan 1 0 4 none) 864000000)
      1296000000).calculateCurrentWeek 1296000000 = 2 ∧
    resumePlan none 1296000000 =
      Except.error ⟨404, "No paused plan to resume"⟩ := by
  refine ⟨by decide, by decide, by decide, by decide, by decide, by decide,
    by decide, rfl⟩

/-- C7 counterexample: the claim says a caller-supplied week number always
takes precedence over the computed one.  `week || computed` falls through
on the falsy supplied value 0: with an active plan in week 2, a request
supplying week 0 resolves to week 2, not 0. -/
theorem C7_counterexample_zero_week :
    resolveWeekAndPlan [newPlan 1 0 4 none] 691200000 (some 0) =
      (2, some 1) ∧ (2 : Int) ≠ 0 :=
  ⟨rfl, by decide⟩

/-- C7 (amended): at each logging endpoint, when no week is supplied the
resolved pair is (`calculateCurrentWeek()`, plan id) if an
active-or-paused plan exists and (1, none) otherwise (in which case every
plan of the user is `completed`); a caller-supplied NONZERO week number
takes precedence over the computed one; and the weight, workout, steps,
and meal endpoints share one and the same resolution function. -/
theorem C7_week_resolution (plans : List Plan) (now : Int) :
    (∀ p : Plan, findActivePlan plans = some p →
      resolveWeekAndPlan plans now none =
        (p.calculateCurrentWeek now, some p.id)) ∧
    (findActivePlan plans = none →
      resolveWeekAndPlan plans now none = (1, none)) ∧
    (findActivePlan plans = none →
      ∀ q ∈ plans, q.status = PlanStatus.completed) ∧
    (∀ w : Int, w ≠ 0 → (resolveWeekAndPlan plans now (some w)).1 = w) ∧
    (∀ (plan : Option Plan) (week : Option Int),
      workoutEntryWeek plan now week = weightEntryWeek plan now week ∧
      stepsEntryWeek plan now week = weightEntryWeek plan now week ∧
      mealEntryWeek plan now week = weightEntryWeek plan now week) := by
  refine ⟨?_, ?_, ?_, ?_, ?_⟩
  · intro p h
    simp [resolveWeekAndPlan, h, weightEntryWeek]
  · intro h
    simp [resolveWeekAndPlan, h, weightEntryWeek]
  · intro h q hq
    unfold findActivePlan at h
    have hnot := List.find?_eq_none.mp h q hq
    rw [decide_eq_true_eq] at hnot
    cases hst : q.status with
    | active => exact absurd (Or.inl hst) hnot
    | paused => exact absurd (Or.inr hst) hnot
    | completed => rfl
  · intro w hw
    cases hfind : findActivePlan plans with
    | none => simp [resolveWeekAndPlan, hfind, weightEntryWeek, hw]
    | some p => simp [resolveWeekAndPlan, hfind, weightEntryWeek, hw]
  · intro plan week
    exact ⟨rfl, rfl, rfl⟩

theorem C7_week_resolution_witness :
    resolveWeekAndPlan [newPlan 4 0 4 none] 0 none =
      ((newPlan 4 0 4 none).calculateCurrentWeek 0,
        some (newPlan 4 0 4 none).id) ∧
    resolveWeekAndPlan [] 0 none = (1, none) ∧
    (resolveWeekAndPlan [newPlan 4 0 4 none] 0 (some 5)).1 = 5 :=
  ⟨(C7_week_resolution [newPlan 4 0 4 none] 0).1 (newPlan 4 0 4 none) rfl,
   (C7_week_resolution [] 0).2.1 rfl,
   (C7_week_resolution [newPlan 4 0 4 none] 0).2.2.2.1 5 (by decide)⟩

/-- C8 counterexample: the claim says a supplied `numberOfWeeks` is stored
if and only if it is at least the computed week.  Supplying 53 to a fresh
4-week plan (computed week 1) passes the route's guard, but the schema
bound `numberOfWeeks ≤ 52` makes `save()` fail: the request errors and
nothing is stored, although `53 ≥ 1`. -/
theorem C8_counterexample_53_weeks :
    updatePlan (newPlan 1 0 4 none) (some 53) 0 =
      Except.error ⟨500, validationMessage⟩ ∧
    (newPlan 1 0 4 none).calculateCurrentWeek 0 ≤ 53 :=
  ⟨rfl, by decide⟩

/-- C8 (amended): for a schema-valid plan, a supplied `numberOfWeeks` is
stored exactly when it is at least the computed current week AND at most
the schema bound 52; a supplied value below the computed week is silently
ignored and the request still succeeds with the plan unchanged; a supplied
value above 52 that passes the guard fails schema validation, erroring the
request and storing nothing. -/
theorem C8_update_number_of_weeks (p : Plan) (v now : Int)
    (hN1 : 1 ≤ p.numberOfWeeks) (hN2 : p.numberOfWeeks ≤ 52)
    (hW : 1 ≤ p.calculateCurrentWeek now) :
    (p.calculateCurrentWeek now ≤ v → v ≤ 52 →
      updatePlan p (some v) now = Except.ok { p with numberOfWeeks := v }) ∧
    (v < p.calculateCurrentWeek now →
      updatePlan p (some v) now = Except.ok p) ∧
    (p.calculateCurrentWeek now ≤ v → 52 < v →
      updatePlan p (some v) now =
        Except.error ⟨500, validationMessage⟩) := by
  refine ⟨?_, ?_, ?_⟩
  · intro hge hle
    have hv0 : v ≠ 0 := by omega
    have hcand : updateCandidate p (some v) now = { p with numberOfWeeks := v } := by
      simp [updateCandidate, hv0, hge]
    have h1 : (1 : Int) ≤ v := by omega
    simp [updatePlan, hcand, h1, hle]
  · intro hlt
    have hcand : updateCandidate p (some v) now = p := by
      unfold updateCandidate
      have : ¬ (v ≠ 0 ∧ p.calculateCurrentWeek now ≤ v) := by
        intro hc
        omega
      simp [this]
    simp [updatePlan, hcand, hN1, hN2]
  · intro hge hgt
    have hv0 : v ≠ 0 := by omega
    have hcand : updateCandidate p (some v) now = { p with numberOfWeeks := v } := by
      simp [updateCandidate, hv0, hge]
    have h2 : ¬ (v ≤ 52) := by omega
    simp [updatePlan, hcand, h2]

theorem C8_update_number_of_weeks_witness :
    updatePlan (newPlan 1 0 4 none) (some 6) 0 =
      Except.ok { newPlan 1 0 4 none with numberOfWeeks := 6 } ∧
    updatePlan (newPlan 1 0 4 none) (some 0) 0 =
      Except.ok (newPlan 1 0 4 none) ∧
    updatePlan (newPlan 1 0 4 none) (some 60) 0 =
      Except.error ⟨500, validationMessage⟩ :=
  ⟨(C8_update_number_of_weeks (newPlan 1 0 4 none) 6 0 (by decide) (by decide)
      (by decide)).1 (by decide) (by decide),
   (C8_update_number_of_weeks (newPlan 1 0 4 none) 0 0 (by decide) (by decide)
      (by decide)).2.1 (by decide),
   (C8_update_number_of_weeks (newPlan 1 0 4 none) 60 0 (by decide) (by decide)
      (by decide)).2.2 (by decide) (by decide)⟩

/-- C9 counterexample: the claim says every valid creation yields computed
week 1 immediately after creation, but `startDate` may lie in the past:
a 4-week plan created with a start date 14 days before the creation
instant computes week 3 at that instant. -/
theorem C9_counterexample_backdated_start :
    createPlan [] 1 0 4 none = Except.ok (newPlan 1 0 4 none) ∧
    (newPlan 1 0 4 none).calculateCurrentWeek 1209600000 = 3 ∧
    (3 : Int) ≠ 1 :=
  ⟨rfl, by decide, by decide⟩

/-- C9 (amended): a freshly created plan computes week 1 at evaluation time
`tc` whenever less than 7 days have elapsed since the supplied
`startDate` (in particular whenever the start date is at or after the
creation instant) or the plan is 1 week long. -/
theorem C9_initial_week (start nw tc : Int) (g : Option Int) (newId : Nat)
    (h1 : 1 ≤ nw)
    (h3 : tc - start < 7 * msPerDay ∨ nw = 1) :
    (newPlan newId start nw g).calculateCurrentWeek tc = 1 := by
  have hst : (newPlan newId start nw g).status ≠ PlanStatus.paused := by
    simp [newPlan]
  rw [calculateCurrentWeek_active _ tc hst]
  have hraw : (newPlan newId start nw g).rawWeek tc =
      Int.fdiv (Int.fdiv (tc - start) msPerDay) 7 + 1 := by
    unfold Plan.rawWeek
    norm_num [newPlan]
  rcases h3 with h3 | h3
  · have hday : (0 : Int) < msPerDay := by decide
    have h7 : (0 : Int) < 7 := by decide
    have hd1 : Int.fdiv (tc - start) msPerDay < 7 := by
      rw [Int.fdiv_eq_ediv _ hday.le]
      exact (Int.ediv_lt_iff_lt_mul hday).mpr (by omega)
    have hd2 : Int.fdiv (Int.fdiv (tc - start) msPerDay) 7 < 1 := by
      rw [Int.fdiv_eq_ediv _ h7.le]
      exact (Int.ediv_lt_iff_lt_mul h7).mpr (by omega)
    have hw1 : (newPlan newId start nw g).rawWeek tc ≤ 1 := by omega
    have hmax : max ((newPlan newId start nw g).rawWeek tc) 1 = 1 :=
      max_eq_right hw1
    rw [hmax]
    exact min_eq_left (by simpa [newPlan] using h1)
  · have hN : (newPlan newId start nw g).numberOfWeeks = 1 := by
      simp [newPlan, h3]
    rw [hN]
    exact min_eq_right (le_max_right _ 1)

theorem C9_initial_week_witness :
    (newPlan 1 0 4 none).calculateCurrentWeek 0 = 1 :=
  C9_initial_week 0 4 0 none 1 (by decide) (Or.inl (by decide))

/-- C10: when a steps entry already exists for the posted date, the handler
updates only `count`, `goal` and — when supplied — `distance` and
`caloriesBurned`, leaving `week`, `planId` and `date` untouched: neither
a caller-supplied week nor the freshly computed current week reaches an
existing date's entry. -/
theorem C10_steps_upsert_frame (e : StepsEntry) (plan : Option Plan)
    (userId : Nat) (entryDate : Int) (req : StepsRequest) (now : Int) :
    (postSteps (some e) plan userId entryDate req now).week = e.week ∧
    (postSteps (some e) plan userId entryDate req now).planId = e.planId ∧
    (postSteps (some e) plan userId entryDate req now).date = e.date ∧
    (postSteps (some e) plan userId entryDate req now).count = req.count ∧
    (postSteps (some e) plan userId entryDate req now).goal =
      resolveStepsGoal req.goal plan ∧
    (postSteps (some e) plan userId entryDate req now).distance =
      (match req.distance with | some d => some d | none => e.distance) ∧
    (postSteps (some e) plan userId entryDate req now).caloriesBurned =
      (match req.caloriesBurned with
        | some c => some c
        | none => e.caloriesBurned) :=
  ⟨rfl, rfl, rfl, rfl, rfl, rfl, rfl⟩


